import Mathlib

/-!
# Verification of `wan_scrapes` (src/wan_scrapes/main.py)

A shallow embedding of the scraping pipeline of `main.py`:

* the parsed-HTML document model (what BeautifulSoup hands to the code:
  a document-order list of tags, each with a name, attributes, an optional
  `.string` value and its list of descendant text nodes);
* a model of `urllib.parse.urlsplit` / `urljoin` (faithful to CPython's
  algorithm for URLs without `;`-params, embedded control characters or
  balanced-bracket hosts, which is the fragment exercised here; both are
  `Except`-valued, the error branch modelling the
  `ValueError("Invalid IPv6 URL")` every CPython raises on a netloc with
  an unbalanced bracket — an error the scraper never catches);
* the extraction functions (`smart_scrape` and its helpers), the formatter
  helpers (`safe_truncate`, embed colour/status text), the retry machinery
  configured on the `requests` session (urllib3 `Retry(total=5, ...)`), the
  fetch boundary `fetch_website_content`, and the per-URL routing of `main`.

Machine integers do not occur; all Python string/list operations are
modelled on Lean `String` / `List`.
-/

set_option maxRecDepth 16384

namespace WanScrapes

/-- A parsed HTML tag as the code observes it through BeautifulSoup:
tag name, attribute list (first binding wins on lookup), the `.string`
property (`some s` when the tag has a unique string child, else `none`),
and the list of descendant text nodes in order (used by `get_text`). -/
structure Tag where
  name : String
  attrs : List (String × String)
  strText : Option String
  texts : List String
deriving Repr, DecidableEq

/-- A parsed document: its tags in document order (as `find_all` traverses). -/
abbrev Doc := List Tag

/-! ### Python string primitives

Structural (kernel-evaluable) models of the Python `str` methods the code
uses; all inputs here are ASCII, where these agree with Python. -/

/-- Python `str.strip()`: drop leading and trailing whitespace. -/
def pyStrip (s : String) : String :=
  String.mk (((s.toList.dropWhile Char.isWhitespace).reverse.dropWhile
    Char.isWhitespace).reverse)

/-- Python `str.lower()`. -/
def pyLower (s : String) : String :=
  String.mk (s.toList.map Char.toLower)

/-- Python `str.startswith(pre)`. -/
def pyStartsWith (s pre : String) : Bool :=
  pre.toList.isPrefixOf s.toList

/-- Worker for `pySplit`: structural scan; `skip` counts separator
characters still to consume after a match. -/
def pySplitAux (sep : List Char) : List Char → Nat → List Char → List (List Char)
  | [], _, acc => [acc.reverse]
  | c :: cs, skip, acc =>
    match skip with
    | n + 1 => pySplitAux sep cs n acc
    | 0 =>
      if sep.isPrefixOf (c :: cs) then
        acc.reverse :: pySplitAux sep cs (sep.length - 1) []
      else pySplitAux sep cs 0 (c :: acc)

/-- Python `str.split(sep)` for a non-empty separator (the one Python
call on an empty separator is guarded away by its caller). -/
def pySplit (s sep : String) : List String :=
  if sep = "" then [s]
  else (pySplitAux sep.toList s.toList 0 []).map String.mk

/-- Split at every character satisfying `p` (empty pieces kept). -/
def pySplitWhenAux (p : Char → Bool) : List Char → List Char → List (List Char)
  | [], acc => [acc.reverse]
  | c :: cs, acc =>
    if p c then acc.reverse :: pySplitWhenAux p cs []
    else pySplitWhenAux p cs (c :: acc)

/-- Split a string at every character satisfying `p`. -/
def pySplitWhen (p : Char → Bool) (s : String) : List String :=
  (pySplitWhenAux p s.toList []).map String.mk

/-- `tag.get(k)`: first binding of attribute `k`. -/
def getAttr (t : Tag) (k : String) : Option String :=
  (t.attrs.find? (fun p => p.1 == k)).map (fun p => p.2)

/-- `tag.get(k, d)`: attribute lookup with default. -/
def getAttrD (t : Tag) (k d : String) : String :=
  (getAttr t k).getD d

/-- `soup.find_all(name)`: all tags with the given name, in document order. -/
def findAll (doc : Doc) (n : String) : List Tag :=
  doc.filter (fun t => t.name == n)

/-- `tag.get_text(strip=True)`: concatenation of the stripped descendant
strings, empty ones dropped (BeautifulSoup's `stripped_strings`). -/
def getTextStrip (t : Tag) : String :=
  String.join ((t.texts.map pyStrip).filter (fun s => s ≠ ""))

/-! ## Model of `urllib.parse` (CPython) -/

/-- Characters allowed in a URL scheme (CPython `scheme_chars`). -/
def scheme_chars : List Char :=
  "abcdefghijklmnopqrstuvwxyzABCDEFGHIJKLMNOPQRSTUVWXYZ0123456789+-.".toList

/-- Split a character list at the first occurrence of `c`. -/
def splitFirst : List Char → Char → Option (List Char × List Char)
  | [], _ => none
  | x :: xs, c =>
    if x = c then some ([], xs)
    else (splitFirst xs c).map (fun p => (x :: p.1, p.2))

/-- Result of `urlsplit`: scheme, netloc, path, query, fragment
(`;`-params, which never occur in this system's URLs, are not modelled). -/
structure SplitUrl where
  scheme : String
  netloc : String
  path : String
  query : String
  fragment : String
deriving Repr, DecidableEq

/-- `urllib.parse.urlsplit(url, scheme=default)`: scheme (lower-cased) when
the prefix before the first `:` starts with a letter and is made of scheme
characters; netloc after a leading `//` up to `/`, `?` or `#` — raising
`ValueError("Invalid IPv6 URL")` (the `Except.error` branch) when that
netloc holds a `[` without `]` or a `]` without `[`, as every CPython
version does; then the fragment is split off at the first `#`, and the
query at the first `?`. Balanced-bracket (IPv6/IPvFuture literal) hosts,
whose further validation is version-dependent (CPython 3.11 also checks
the address), stay outside the model's fidelity domain. -/
def urlsplitD (url : String) (default_scheme : String) : Except String SplitUrl :=
  let cs := url.toList
  let schemeRest : String × List Char :=
    match splitFirst cs ':' with
    | some (before, after) =>
      if before ≠ [] ∧ (before.headD 'a').isAlpha ∧ before.all (fun c => c ∈ scheme_chars)
      then (pyLower (String.mk before), after)
      else (default_scheme, cs)
    | none => (default_scheme, cs)
  let scheme := schemeRest.1
  let netlocRest : Except String (String × List Char) :=
    match schemeRest.2 with
    | '/' :: '/' :: r =>
      let nl := r.takeWhile (fun c => c ≠ '/' ∧ c ≠ '?' ∧ c ≠ '#')
      if ('[' ∈ nl ∧ ']' ∉ nl) ∨ (']' ∈ nl ∧ '[' ∉ nl) then
        Except.error "Invalid IPv6 URL"
      else Except.ok (String.mk nl, r.drop nl.length)
    | r => Except.ok ("", r)
  match netlocRest with
  | Except.error e => Except.error e
  | Except.ok (netloc, rest2) =>
    let fragSplit : List Char × String :=
      match splitFirst rest2 '#' with
      | some (a, b) => (a, String.mk b)
      | none => (rest2, "")
    let querySplit : List Char × String :=
      match splitFirst fragSplit.1 '?' with
      | some (a, b) => (a, String.mk b)
      | none => (fragSplit.1, "")
    Except.ok ⟨scheme, netloc, String.mk querySplit.1, querySplit.2, fragSplit.2⟩

/-- `urllib.parse.urlparse(url)` restricted to the components this code
reads (scheme and netloc; params are not split off). -/
def urlparse (url : String) : Except String SplitUrl := urlsplitD url ""

/-- `urllib.parse.urlunsplit`. -/
def urlunsplit (scheme netloc path query fragment : String) : String :=
  let url := path
  let url :=
    if netloc ≠ "" ∨ pyStartsWith url "//" then
      "//" ++ netloc ++ (if url ≠ "" ∧ ¬ pyStartsWith url "/" then "/" ++ url else url)
    else url
  let url := if scheme ≠ "" then scheme ++ ":" ++ url else url
  let url := if query ≠ "" then url ++ "?" ++ query else url
  if fragment ≠ "" then url ++ "#" ++ fragment else url

/-- Schemes that allow relative resolution (CPython `uses_relative`). -/
def uses_relative : List String :=
  ["", "ftp", "http", "gopher", "nntp", "imap", "wais", "file", "https",
   "shttp", "mms", "prospero", "rtsp", "rtspu", "sftp", "svn", "svn+ssh",
   "ws", "wss"]

/-- Schemes that use a network location (CPython `uses_netloc`). -/
def uses_netloc : List String :=
  ["", "ftp", "http", "gopher", "nntp", "telnet", "imap", "wais", "file",
   "mms", "https", "shttp", "snews", "prospero", "rtsp", "rtspu", "rsync",
   "svn", "svn+ssh", "sftp", "nfs", "git", "git+ssh", "ws", "wss"]

/-- Drop empty segments strictly between the first and last element
(CPython's `segments[1:-1] = filter(None, segments[1:-1])`), tail part. -/
def filterInnerTail : List String → List String
  | [] => []
  | [b] => [b]
  | x :: xs => if x = "" then filterInnerTail xs else x :: filterInnerTail xs

/-- Drop empty segments strictly between the first and last element. -/
def filterInner : List String → List String
  | [] => []
  | [a] => [a]
  | a :: rest => a :: filterInnerTail rest

/-- One step of CPython's dot-segment resolution loop. -/
def resolveStep (acc : List String) (seg : String) : List String :=
  if seg = ".." then acc.dropLast
  else if seg = "." then acc
  else acc ++ [seg]

/-- `urllib.parse.urljoin(base, url)`: CPython's RFC-3986 join (without
`;`-params, which never occur here). An empty base or url returns early
without parsing; otherwise the base and then the url are split, and a
`ValueError` raised by either split (unbalanced bracket netloc)
propagates. -/
def urljoin (base url : String) : Except String String :=
  if base = "" then Except.ok url
  else if url = "" then Except.ok base
  else
    match urlsplitD base "" with
    | Except.error e => Except.error e
    | Except.ok b =>
      match urlsplitD url b.scheme with
      | Except.error e => Except.error e
      | Except.ok u =>
        if u.scheme ≠ b.scheme ∨ u.scheme ∉ uses_relative then Except.ok url
        else if u.scheme ∈ uses_netloc ∧ u.netloc ≠ "" then
          Except.ok (urlunsplit u.scheme u.netloc u.path u.query u.fragment)
        else
          let netloc := if u.scheme ∈ uses_netloc then b.netloc else u.netloc
          if u.path = "" then
            let query := if u.query = "" then b.query else u.query
            Except.ok (urlunsplit u.scheme netloc b.path query u.fragment)
          else
            let base_parts :=
              let bp := pySplit b.path "/"
              if bp.getLastD "" ≠ "" then bp.dropLast else bp
            let segments :=
              if pyStartsWith u.path "/" then pySplit u.path "/"
              else filterInner (base_parts ++ pySplit u.path "/")
            let resolved := segments.foldl resolveStep []
            let resolved :=
              if segments.getLastD "" = "." ∨ segments.getLastD "" = ".." then
                resolved ++ [""]
              else resolved
            let path := String.intercalate "/" resolved
            let path := if path = "" then "/" else path
            Except.ok (urlunsplit u.scheme netloc path u.query u.fragment)

/-! ## Formatter helper (main.py lines 59-62) -/

/-- `safe_truncate(text, max_len)`: unchanged when within the limit, else
the first `max_len` characters followed by the ellipsis character. -/
def safe_truncate (text : String) (max_len : Nat) : String :=
  if text.length > max_len then text.take max_len ++ "…" else text

/-! ## Extraction helpers (main.py lines 77-141) -/

/-- An entry of a Python list that mixes parsed-JSON values with sentinel
strings (as `json_ld` fields do in `main.py`). -/
inductive JsonLd (α : Type) where
  | parsed (a : α)
  | str (s : String)
deriving Repr, DecidableEq

/-- The `<script type="application/ld+json">` tags of the document
(`soup.find_all("script", type="application/ld+json")`; `type` is not a
multi-valued attribute, so the match is exact). -/
def ldScripts (doc : Doc) : List Tag :=
  (findAll doc "script").filter (fun t => getAttr t "type" == some "application/ld+json")

/-- One iteration of the `extract_json_ld` loop: `json.loads` the block's
string and append, a parse failure (or a missing string, over which
`json.loads` raises) is skipped by the bare `except`. -/
def jsonLdStep {α : Type} (parse : String → Option α) (acc : List (JsonLd α)) (s : Tag) :
    List (JsonLd α) :=
  match s.strText with
  | none => acc
  | some txt =>
    match parse txt with
    | some d => acc ++ [JsonLd.parsed d]
    | none => acc

/-- `extract_json_ld(soup)` (lines 77-85), parameterised by the external
JSON parser `parse` (a model of `json.loads`; `none` both for a parse
failure and for `script.string is None`, where `json.loads` raises and the
bare `except` skips the block). -/
def extract_json_ld {α : Type} (parse : String → Option α) (doc : Doc) : List (JsonLd α) :=
  let data := (ldScripts doc).foldl (jsonLdStep parse) ([] : List (JsonLd α))
  if data.isEmpty then [JsonLd.str "Not found"] else data

/-- Python `a or b` on an optional string (`None` and `""` are falsy). -/
def pyOrStr (a : Option String) (b : String) : String :=
  match a with
  | some s => if s = "" then b else s
  | none => b

/-- Insert into a Python dict modelled as an assoc list: overwriting keeps
the key's original position, a new key is appended. -/
def dictInsert (d : List (String × String)) (k v : String) : List (String × String) :=
  if d.any (fun p => p.1 == k) then d.map (fun p => if p.1 == k then (k, v) else p)
  else d ++ [(k, v)]

/-- `extract_open_graph(soup)` (lines 87-93). -/
def extract_open_graph (doc : Doc) : List (String × String) :=
  let og := (findAll doc "meta").foldl
    (fun og t =>
      let prop := pyOrStr (getAttr t "property") (pyOrStr (getAttr t "name") "")
      if pyStartsWith prop "og:" || pyStartsWith prop "twitter:" then
        dictInsert og prop (getAttrD t "content" "Not found")
      else og)
    []
  if og.isEmpty then [("None", "Not found")] else og

/-- `pat in s` on Python strings (substring containment). -/
def containsSubstr (s pat : String) : Bool :=
  pat == "" || (pySplit s pat).length > 1

/-- The items of a multi-valued attribute such as `rel` (BeautifulSoup
splits the attribute value on whitespace). -/
def splitWS (s : String) : List String :=
  (pySplitWhen Char.isWhitespace s).filter (fun x => x ≠ "")

/-- BeautifulSoup's match of `rel=lambda x: x and "icon" in x.lower()`:
the lambda is tried on every item of the multi-valued `rel` and on the
space-joined value. -/
def relIconMatch (r : String) : Bool :=
  (splitWS r).any (fun item => item ≠ "" && containsSubstr (pyLower item) "icon")
    || (let joined := String.intercalate " " (splitWS r)
        joined ≠ "" && containsSubstr (pyLower joined) "icon")

/-- The loop of `find_favicons`: resolve each matching link's truthy href,
a `ValueError` from `urljoin` propagating out of the loop. -/
def faviconsLoop (base_url : String) : List Tag → List String → Except String (List String)
  | [], icons => Except.ok icons
  | t :: rest, icons =>
    match getAttr t "rel" with
    | none => faviconsLoop base_url rest icons
    | some r =>
      if relIconMatch r then
        match getAttr t "href" with
        | some href =>
          if href = "" then faviconsLoop base_url rest icons
          else
            match urljoin base_url href with
            | Except.error e => Except.error e
            | Except.ok u => faviconsLoop base_url rest (icons ++ [u])
        | none => faviconsLoop base_url rest icons
      else faviconsLoop base_url rest icons

/-- `find_favicons(soup, base_url)` (lines 95-101). -/
def find_favicons (doc : Doc) (base_url : String) : Except String (List String) :=
  match faviconsLoop base_url (findAll doc "link") [] with
  | Except.error e => Except.error e
  | Except.ok icons => Except.ok (if icons.isEmpty then ["Not found"] else icons)

/-- The loop of `get_main_images` (lines 105-110): append each truthy
`src` resolved against the base, stopping once 5 images are collected; a
`ValueError` from `urljoin` propagates. -/
def imagesLoop (base_url : String) : List Tag → List String → Except String (List String)
  | [], images => Except.ok images
  | img :: rest, images =>
    let src := getAttrD img "src" ""
    if src = "" then
      if 5 ≤ images.length then Except.ok images else imagesLoop base_url rest images
    else
      match urljoin base_url src with
      | Except.error e => Except.error e
      | Except.ok u =>
        let images' := images ++ [u]
        if 5 ≤ images'.length then Except.ok images' else imagesLoop base_url rest images'

/-- `get_main_images(soup, base_url)` (lines 103-111); `find_all("img",
src=True)` keeps the tags that have a `src` attribute. -/
def get_main_images (doc : Doc) (base_url : String) : Except String (List String) :=
  match imagesLoop base_url ((findAll doc "img").filter (fun t => (getAttr t "src").isSome)) [] with
  | Except.error e => Except.error e
  | Except.ok images => Except.ok (if images.isEmpty then ["Not found"] else images)

/-- BeautifulSoup's match of `rel="canonical"` against the multi-valued
`rel` attribute: some item, or the space-joined value, equals it. -/
def relCanonicalMatch (r : String) : Bool :=
  (splitWS r).any (fun item => item == "canonical")
    || String.intercalate " " (splitWS r) == "canonical"

/-- `get_canonical_url(soup, base_url)` (lines 113-117); a `ValueError`
from `urljoin` propagates. -/
def get_canonical_url (doc : Doc) (base_url : String) : Except String String :=
  match (findAll doc "link").find?
      (fun t => match getAttr t "rel" with
        | some r => relCanonicalMatch r
        | none => false) with
  | some l =>
    match getAttr l "href" with
    | some href => if href = "" then Except.ok "Not found" else urljoin base_url href
    | none => Except.ok "Not found"
  | none => Except.ok "Not found"

/-- `soup.find("meta", attrs={"name": n})`. -/
def findMetaNamed (doc : Doc) (n : String) : Option Tag :=
  (findAll doc "meta").find? (fun t => getAttr t "name" == some n)

/-- `get_robots_meta(soup)` (lines 119-123): the trimmed `content` of
`<meta name="robots">` when truthy, else the sentinel. -/
def get_robots_meta (doc : Doc) : String :=
  match findMetaNamed doc "robots" with
  | some t =>
    match getAttr t "content" with
    | some c => if c = "" then "Not found" else pyStrip c
    | none => "Not found"
  | none => "Not found"

/-! ## Link classification (`count_links`, main.py lines 125-141) -/

/-- Add to a Python `set` modelled as a duplicate-free list. -/
def addSet (s : List String) (x : String) : List String :=
  if x ∈ s then s else s ++ [x]

/-- The anchors `find_all("a", href=True)` iterates: `a` tags that have an
`href` attribute (present with any value, the empty string included). -/
def anchorsWithHref (doc : Doc) : List Tag :=
  (findAll doc "a").filter (fun t => (getAttr t "href").isSome)

/-- The skip test of `count_links`: bare fragment or `javascript:` link. -/
def skipHref (href : String) : Bool :=
  pyStartsWith href "#" || pyStartsWith (pyLower href) "javascript:"

/-- One iteration of the `count_links` loop over an anchor
(`base_domain` is the lower-cased base netloc computed before the loop);
a `ValueError` from `urljoin` or `urlparse` propagates. -/
def linkStep (base_url base_domain : String) (acc : List String × List String) (a : Tag) :
    Except String (List String × List String) :=
  match getAttr a "href" with
  | none => Except.ok acc
  | some h =>
    let href := pyStrip h
    if skipHref href then Except.ok acc
    else
      match urljoin base_url href with
      | Except.error e => Except.error e
      | Except.ok full_url =>
        match urlparse full_url with
        | Except.error e => Except.error e
        | Except.ok parsed_url =>
          let domain := pyLower parsed_url.netloc
          if domain = base_domain then Except.ok (addSet acc.1 full_url, acc.2)
          else Except.ok (acc.1, addSet acc.2 full_url)

/-- The anchor loop of `count_links`: the first raising anchor aborts the
whole loop, as the Python `for` does. -/
def linkLoop (base_url base_domain : String) :
    List Tag → List String × List String → Except String (List String × List String)
  | [], acc => Except.ok acc
  | t :: rest, acc =>
    match linkStep base_url base_domain acc t with
    | Except.error e => Except.error e
    | Except.ok acc' => linkLoop base_url base_domain rest acc'

/-- `count_links(soup, base_url)` (lines 125-141): the internal and
external link sets of the page, as (duplicate-free) lists; the base URL
is parsed before the loop, and any `ValueError` propagates. -/
def count_links (doc : Doc) (base_url : String) :
    Except String (List String × List String) :=
  match urlparse base_url with
  | Except.error e => Except.error e
  | Except.ok parsed_base =>
    linkLoop base_url (pyLower parsed_base.netloc) (anchorsWithHref doc) ([], [])

/-! ## `smart_scrape` (main.py lines 143-212) -/

/-- The record `smart_scrape` returns (the Python dict of lines 189-212);
`α` is the type of parsed JSON-LD values. -/
structure ScrapedData (α : Type) where
  title : String
  meta_description : String
  meta_keywords : String
  headlines : List String
  subheadlines : List String
  summaries : List String
  charset : String
  lang : String
  json_ld : List (JsonLd α)
  open_graph : List (String × String)
  favicons : List String
  main_images : List String
  canonical_url : String
  robots_meta : String
  internal_links_count : Nat
  external_links_count : Nat
  internal_links_sample : List String
  external_links_sample : List String
  last_modified : String
  content_length : String
  server : String
  load_time : Int
deriving Repr, DecidableEq

/-- Line 146: `soup.title.string.strip() if soup.title and soup.title.string
else "Title not found"`. -/
def scrape_title (doc : Doc) : String :=
  match (findAll doc "title").head? with
  | some t =>
    match t.strText with
    | some s => if s = "" then "Title not found" else pyStrip s
    | none => "Title not found"
  | none => "Title not found"

/-- Lines 148-149: trimmed `content` of `<meta name="description">`. -/
def scrape_meta_description (doc : Doc) : String :=
  match findMetaNamed doc "description" with
  | some t => pyStrip (getAttrD t "content" "")
  | none => "Meta description not found"

/-- Lines 151-152: trimmed `content` of `<meta name="keywords">`. -/
def scrape_meta_keywords (doc : Doc) : String :=
  match findMetaNamed doc "keywords" with
  | some t => pyStrip (getAttrD t "content" "")
  | none => "Meta keywords not found"

/-- Lines 154-155: first five non-empty `h1` texts, else the sentinel. -/
def scrape_headlines (doc : Doc) : List String :=
  let h1_tags := ((findAll doc "h1").map getTextStrip).filter (fun s => s ≠ "")
  let hs := h1_tags.take 5
  if hs.isEmpty then ["No H1 tags found"] else hs

/-- Lines 157-158: first five non-empty `h2` texts, else the sentinel. -/
def scrape_subheadlines (doc : Doc) : List String :=
  let h2_tags := ((findAll doc "h2").map getTextStrip).filter (fun s => s ≠ "")
  let hs := h2_tags.take 5
  if hs.isEmpty then ["No H2 tags found"] else hs

/-- Lines 160-163: the paragraph texts that are truthy and longer than 50
characters, in document order. -/
def scrape_paragraphs (doc : Doc) : List String :=
  ((findAll doc "p").map getTextStrip).filter (fun s => s ≠ "" && decide (50 < s.length))

/-- Line 164: `paragraphs[:5] or ["No meaningful paragraphs found"]`. -/
def scrape_summaries (doc : Doc) : List String :=
  let ss := (scrape_paragraphs doc).take 5
  if ss.isEmpty then ["No meaningful paragraphs found"] else ss

/-- Lines 166-173: `<meta charset>` first, else the `charset=` suffix of a
`Content-Type` meta; falsy results fall back to `"Unknown"` at line 196. -/
def scrape_charset (doc : Doc) : String :=
  let charsetOpt : Option String :=
    match (findAll doc "meta").find? (fun t => (getAttr t "charset").isSome) with
    | some t => getAttr t "charset"
    | none =>
      match (findAll doc "meta").find? (fun t => getAttr t "http-equiv" == some "Content-Type") with
      | some t =>
        let content := getAttrD t "content" ""
        if (pySplit content "charset=").length > 1 then
          some ((pySplit content "charset=").getLastD "")
        else none
      | none => none
  match charsetOpt with
  | some s => if s = "" then "Unknown" else s
  | none => "Unknown"

/-- Line 175: the `lang` attribute of the root `html` element; falsy
results fall back to `"Unknown"` at line 197. -/
def scrape_lang (doc : Doc) : String :=
  let lang : Option String :=
    match (findAll doc "html").head? with
    | some t => getAttr t "lang"
    | none => none
  match lang with
  | some s => if s = "" then "Unknown" else s
  | none => "Unknown"

/-- `headers.get(k, d)` on a `requests` response-header mapping (a
case-insensitive dict). -/
def headerGet (hs : List (String × String)) (k d : String) : String :=
  match hs.find? (fun p => pyLower p.1 == pyLower k) with
  | some p => p.2
  | none => d

/-- `smart_scrape(html, base_url, response_headers, load_time)` (lines
143-212), over the parsed document and with `json.loads` abstracted as
`parse`. The URL-resolving helpers are evaluated in source order
(favicons line 179, main images 180, canonical 181, links 183); the first
`ValueError` any of them raises propagates uncaught — there is no
`try` in `smart_scrape` or around its call site at line 352. -/
def smart_scrape {α : Type} (parse : String → Option α) (doc : Doc)
    (base_url : String) (response_headers : List (String × String)) (load_time : Int) :
    Except String (ScrapedData α) :=
  match find_favicons doc base_url with
  | Except.error e => Except.error e
  | Except.ok favicons =>
  match get_main_images doc base_url with
  | Except.error e => Except.error e
  | Except.ok main_images =>
  match get_canonical_url doc base_url with
  | Except.error e => Except.error e
  | Except.ok canonical_url =>
  match count_links doc base_url with
  | Except.error e => Except.error e
  | Except.ok links =>
  let internal_links := links.1
  let external_links := links.2
  Except.ok {
    title := scrape_title doc
    meta_description := scrape_meta_description doc
    meta_keywords := scrape_meta_keywords doc
    headlines := scrape_headlines doc
    subheadlines := scrape_subheadlines doc
    summaries := scrape_summaries doc
    charset := scrape_charset doc
    lang := scrape_lang doc
    json_ld := extract_json_ld parse doc
    open_graph := extract_open_graph doc
    favicons := favicons
    main_images := main_images
    canonical_url := canonical_url
    robots_meta := get_robots_meta doc
    internal_links_count := internal_links.length
    external_links_count := external_links.length
    internal_links_sample :=
      if (internal_links.take 5).isEmpty then ["None"] else internal_links.take 5
    external_links_sample :=
      if (external_links.take 5).isEmpty then ["None"] else external_links.take 5
    last_modified := headerGet response_headers "Last-Modified" "Not found"
    content_length := headerGet response_headers "Content-Length" "Unknown"
    server := headerGet response_headers "Server" "Unknown"
    load_time := load_time }

/-! ## Fetch with retries (main.py lines 38-75)

The session mounts `HTTPAdapter(max_retries=Retry(total=5, backoff_factor=1,
status_forcelist=[429, 500, 502, 503, 504], allowed_methods=["HEAD", "GET",
"OPTIONS"]))`; the code only issues GET, which is in `allowed_methods`.
The model below embeds urllib3's retry loop: every attempt's outcome is
supplied by an environment function `outcomes : Nat → AttemptOutcome`; a
network-level failure or a forcelist status consumes one retry (urllib3's
`Retry.increment` decrements `total` and raises `MaxRetryError` — without
an attached response — once it would go below zero). -/

/-- What the network does on one attempt: fail at the transport level, or
deliver a response with a status, headers and body. -/
inductive AttemptOutcome where
  | netFail
  | response (status : Nat) (headers : List (String × String)) (body : String)
deriving Repr

/-- What `session.get` produces: a response, or a raised
`MaxRetryError`/`ConnectionError` carrying no response object. -/
inductive SessionResult where
  | resp (status : Nat) (headers : List (String × String)) (body : String)
  | errNoResponse
deriving Repr

/-- The configured `status_forcelist` (line 44). -/
def status_forcelist : List Nat := [429, 500, 502, 503, 504]

/-- Whether an attempt's outcome makes urllib3 retry: a network-level
failure, or a response whose status is in the forcelist. -/
def retryableOutcome : AttemptOutcome → Bool
  | AttemptOutcome.netFail => true
  | AttemptOutcome.response st _ _ => st ∈ status_forcelist

/-- urllib3's retry loop: attempt `i` with `remaining` retries allowed;
a retryable outcome either consumes a retry or, when none remain,
raises with no attached response. -/
def urlopenRetry (outcomes : Nat → AttemptOutcome) : Nat → Nat → SessionResult
  | remaining, i =>
    if retryableOutcome (outcomes i) then
      match remaining with
      | 0 => SessionResult.errNoResponse
      | r + 1 => urlopenRetry outcomes r (i + 1)
    else
      match outcomes i with
      | AttemptOutcome.response st hs b => SessionResult.resp st hs b
      | AttemptOutcome.netFail => SessionResult.errNoResponse

/-- How many HTTP request attempts the retry loop issues. -/
def urlopenAttempts (outcomes : Nat → AttemptOutcome) : Nat → Nat → Nat
  | remaining, i =>
    if retryableOutcome (outcomes i) then
      match remaining with
      | 0 => 1
      | r + 1 => 1 + urlopenAttempts outcomes r (i + 1)
    else 1

/-- `session.get` under the mounted adapter: the retry loop starting at
attempt 0 with `total=5` retries allowed. -/
def session_get (outcomes : Nat → AttemptOutcome) : SessionResult :=
  urlopenRetry outcomes 5 0

/-- The number of attempts `session.get` issues for a given environment. -/
def session_get_attempts (outcomes : Nat → AttemptOutcome) : Nat :=
  urlopenAttempts outcomes 5 0

/-- urllib3 `Retry.get_backoff_time` as a function of the number of
consecutive retries so far: zero before the first retry, then
`backoff_factor * 2^(n-1)` capped at `backoff_max = 120` seconds. -/
def get_backoff_time (backoff_factor : Nat) (consecutive : Nat) : Nat :=
  if consecutive ≤ 1 then 0 else min 120 (backoff_factor * 2 ^ (consecutive - 1))

/-- The status slot of the tuple `fetch_website_content` returns: a real
code, or the `'N/A'` placeholder taken when the raised exception has no
response attached. -/
inductive StatusVal where
  | code (n : Nat)
  | na
deriving Repr, DecidableEq

/-- The 4-tuple `fetch_website_content` returns:
`(text-or-None, status, headers, load_time)`. -/
structure FetchReturn where
  text : Option String
  status : StatusVal
  headers : List (String × String)
  load_time : Int
deriving Repr, DecidableEq

/-- `fetch_website_content(url)` (lines 64-75): on a delivered response,
`raise_for_status` turns a 4xx/5xx into an `HTTPError` whose attached
response supplies the status of the failure tuple; a raise without a
response (`MaxRetryError`, `ConnectionError`) yields the `'N/A'`
placeholder. `elapsed` is the measured wall-clock duration. -/
def fetch_website_content (outcomes : Nat → AttemptOutcome) (elapsed : Int) : FetchReturn :=
  match session_get outcomes with
  | SessionResult.errNoResponse => ⟨none, StatusVal.na, [], 0⟩
  | SessionResult.resp st hs b =>
    if 400 ≤ st ∧ st < 600 then ⟨none, StatusVal.code st, [], 0⟩
    else ⟨some b, StatusVal.code st, hs, elapsed⟩

/-! ## Formatter status fields and orchestrator routing (lines 224-355) -/

/-- How the status lands in the embed's `Status` field (the Python
f-strings interpolate `'N/A'` for a missing code). -/
def statusRepr : StatusVal → String
  | StatusVal.code n => toString n
  | StatusVal.na => "N/A"

/-- Line 225: `f"{status_code} OK" if status_code == 200 else
f"Error: {status_code}"`. -/
def status_text (s : StatusVal) : String :=
  if s = StatusVal.code 200 then statusRepr s ++ " OK" else "Error: " ++ statusRepr s

/-- Line 226: green when the status equals 200, else red. -/
def embed_color (s : StatusVal) : Nat :=
  if s = StatusVal.code 200 then 0x2ecc71 else 0xe74c3c

/-- The synthetic record `main` builds when `html` is falsy
(lines 327-350). -/
def failure_scraped_data {α : Type} : ScrapedData α :=
  { title := "N/A"
    meta_description := "N/A"
    meta_keywords := "N/A"
    headlines := ["Failed to retrieve content."]
    subheadlines := ["Failed to retrieve content."]
    summaries := ["Failed to retrieve content."]
    charset := "N/A"
    lang := "N/A"
    json_ld := [JsonLd.str "N/A"]
    open_graph := [("N/A", "N/A")]
    favicons := ["N/A"]
    main_images := ["N/A"]
    canonical_url := "N/A"
    robots_meta := "N/A"
    internal_links_count := 0
    external_links_count := 0
    internal_links_sample := []
    external_links_sample := []
    last_modified := "N/A"
    content_length := "N/A"
    server := "N/A"
    load_time := 0 }

/-- The per-URL routing of `main` (lines 324-352): `if not html:` — `None`
or the empty string — substitutes the synthetic record, else the fetched
HTML is parsed (`parseHtml` models BeautifulSoup) and extracted; a
`ValueError` raised by `smart_scrape` propagates out of `main` (the call
at line 352 has no `try` around it). -/
def process_fetch_result {α : Type} (parseHtml : String → Doc)
    (parse : String → Option α) (url : String) (fr : FetchReturn) :
    Except String (ScrapedData α) :=
  match fr.text with
  | none => Except.ok failure_scraped_data
  | some html =>
    if html = "" then Except.ok failure_scraped_data
    else smart_scrape parse (parseHtml html) url fr.headers fr.load_time

/-- The record `smart_scrape` builds for a document containing none of
the targeted elements, with no response headers: every field at its
documented sentinel. -/
def sentinelRecord (load_time : Int) : ScrapedData Nat :=
  { title := "Title not found"
    meta_description := "Meta description not found"
    meta_keywords := "Meta keywords not found"
    headlines := ["No H1 tags found"]
    subheadlines := ["No H2 tags found"]
    summaries := ["No meaningful paragraphs found"]
    charset := "Unknown"
    lang := "Unknown"
    json_ld := [JsonLd.str "Not found"]
    open_graph := [("None", "Not found")]
    favicons := ["Not found"]
    main_images := ["Not found"]
    canonical_url := "Not found"
    robots_meta := "Not found"
    internal_links_count := 0
    external_links_count := 0
    internal_links_sample := ["None"]
    external_links_sample := ["None"]
    last_modified := "Not found"
    content_length := "Unknown"
    server := "Unknown"
    load_time := load_time }

/-! ## Helper lemmas -/

/-- The default-substitution step `l or [sentinel]` never yields `[]`. -/
theorem sentinelized_ne_nil {α : Type} (l : List α) (s : α) :
    (if l.isEmpty then [s] else l) ≠ [] := by
  split
  · simp
  · next h => simpa [List.isEmpty_iff] using h

/-- Accumulating loop of `extract_json_ld` as a `filterMap`. -/
theorem jsonLd_foldl_eq {α : Type} (parse : String → Option α) :
    ∀ (l : List Tag) (acc : List (JsonLd α)),
      l.foldl (jsonLdStep parse) acc =
        acc ++ (l.filterMap (fun s => s.strText.bind parse)).map JsonLd.parsed := by
  intro l
  induction l with
  | nil => intro acc; simp
  | cons t rest ih =>
    intro acc
    simp only [List.foldl_cons, List.filterMap_cons]
    cases hst : t.strText with
    | none => simpa [jsonLdStep, hst] using ih acc
    | some txt =>
      cases hp : parse txt with
      | none => simpa [jsonLdStep, hst, hp] using ih acc
      | some d => simpa [jsonLdStep, hst, hp] using ih (acc ++ [JsonLd.parsed d])

/-! ## C8 — truncation -/

/-- C8: `safe_truncate` returns strings of length at most 700 unchanged,
and otherwise exactly the first 700 characters followed by the ellipsis
marker. -/
theorem C8_safe_truncate (s : String) :
    (s.length ≤ 700 → safe_truncate s 700 = s) ∧
    (700 < s.length → safe_truncate s 700 = s.take 700 ++ "…") := by
  constructor
  · intro h
    simp [safe_truncate, Nat.not_lt.mpr h]
  · intro h
    simp [safe_truncate, h]

/-- Witness for C8 at the boundary: a 700-character string is unchanged,
a 701-character string becomes its first 700 characters plus the marker. -/
theorem C8_safe_truncate_witness :
    safe_truncate (String.mk (List.replicate 700 'a')) 700 = String.mk (List.replicate 700 'a') ∧
    safe_truncate (String.mk (List.replicate 701 'a')) 700 =
      (String.mk (List.replicate 701 'a')).take 700 ++ "…" :=
  ⟨(C8_safe_truncate (String.mk (List.replicate 700 'a'))).1 (by decide),
   (C8_safe_truncate (String.mk (List.replicate 701 'a'))).2 (by decide)⟩

/-! ## C9 — structured-data resilience -/

/-- C9: each `application/ld+json` block is parsed independently; failing
blocks are skipped without affecting the others, and when zero blocks
parse the sentinel list is returned. The concrete conjunct: a document
with one valid and one malformed block yields exactly the valid one. -/
theorem C9_structured_data {α : Type} (parse : String → Option α) (doc : Doc) :
    (extract_json_ld parse doc =
      (let vals := (ldScripts doc).filterMap (fun s => s.strText.bind parse)
       if vals.isEmpty then [JsonLd.str "Not found"] else vals.map JsonLd.parsed)) ∧
    (extract_json_ld (fun s => if s = "\x7b\"ok\": 1\x7d" then some 1 else none)
      [⟨"script", [("type", "application/ld+json")], some "\x7b\"ok\": 1\x7d", []⟩,
       ⟨"script", [("type", "application/ld+json")], some "\x7bmalformed", []⟩]
      = [JsonLd.parsed 1]) := by
  constructor
  · show (let data := (ldScripts doc).foldl (jsonLdStep parse) []
          if data.isEmpty then [JsonLd.str "Not found"] else data) = _
    rw [jsonLd_foldl_eq]
    simp only [List.nil_append]
    by_cases hv : ((ldScripts doc).filterMap (fun s => s.strText.bind parse)).isEmpty
    · simp [hv, List.isEmpty_iff.mp hv]
    · simp only [hv, if_neg]
      simp [List.isEmpty_iff] at hv
      simp [hv]
  · rfl

/-! ## C10 — orchestrator routes on body truthiness -/

/-- C10: a fetch that completes with an empty response body and HTTP 200
is routed to the synthetic all-`"N/A"` record — the extractor is never
consulted (the result is independent of the HTML parser and the JSON
parser) — while the report keeps status 200, so the embed is
success-coloured green with `"200 OK"` as its status text. -/
theorem C10_empty_body_routing {α : Type} (parseHtml : String → Doc)
    (parse : String → Option α) (url : String)
    (hs : List (String × String)) (t : Int) :
    process_fetch_result parseHtml parse url ⟨some "", StatusVal.code 200, hs, t⟩ =
      Except.ok failure_scraped_data ∧
    (∀ elapsed : Int,
      fetch_website_content (fun _ => AttemptOutcome.response 200 hs "") elapsed =
        ⟨some "", StatusVal.code 200, hs, elapsed⟩) ∧
    embed_color (StatusVal.code 200) = 0x2ecc71 ∧
    status_text (StatusVal.code 200) = "200 OK" := by
  refine ⟨rfl, fun elapsed => ?_, rfl, rfl⟩
  show (match session_get (fun _ => AttemptOutcome.response 200 hs "") with
        | SessionResult.errNoResponse => (⟨none, StatusVal.na, [], 0⟩ : FetchReturn)
        | SessionResult.resp st h b =>
          if 400 ≤ st ∧ st < 600 then ⟨none, StatusVal.code st, [], 0⟩
          else ⟨some b, StatusVal.code st, h, elapsed⟩) = _
  have hsess : session_get (fun _ => AttemptOutcome.response 200 hs "") =
      SessionResult.resp 200 hs "" := by
    simp [session_get, urlopenRetry, retryableOutcome, status_forcelist]
  rw [hsess]
  norm_num

/-! ## C5 — the fetcher never raises past its boundary -/

/-- C5: for every environment behaviour, `fetch_website_content` returns a
value (every raised `RequestException` is caught): a success tuple with
body, status, headers and elapsed time when the session delivers a
non-error response; a failure tuple carrying the status attached to the
`HTTPError` when the delivered response is a 4xx/5xx; and a failure tuple
with the `'N/A'` placeholder when the raised error carries no response
(network failure or exhausted retries). -/
theorem C5_fetch_never_raises (outcomes : Nat → AttemptOutcome) (elapsed : Int) :
    (∃ st hs b, session_get outcomes = SessionResult.resp st hs b ∧
      ¬(400 ≤ st ∧ st < 600) ∧
      fetch_website_content outcomes elapsed = ⟨some b, StatusVal.code st, hs, elapsed⟩) ∨
    (∃ st hs b, session_get outcomes = SessionResult.resp st hs b ∧
      (400 ≤ st ∧ st < 600) ∧
      fetch_website_content outcomes elapsed = ⟨none, StatusVal.code st, [], 0⟩) ∨
    (session_get outcomes = SessionResult.errNoResponse ∧
      fetch_website_content outcomes elapsed = ⟨none, StatusVal.na, [], 0⟩) := by
  cases hsess : session_get outcomes with
  | errNoResponse =>
    right; right
    exact ⟨rfl, by simp [fetch_website_content, hsess]⟩
  | resp st hs b =>
    by_cases hb : 400 ≤ st ∧ st < 600
    · right; left
      exact ⟨st, hs, b, rfl, hb, by simp [fetch_website_content, hsess, hb]⟩
    · left
      exact ⟨st, hs, b, rfl, hb, by simp [fetch_website_content, hsess, hb]⟩

/-! ## C3 — retry policy -/

/-- Unfolding equation: with no retries remaining, exactly one attempt. -/
theorem urlopenAttempts_zero (outcomes : Nat → AttemptOutcome) (i : Nat) :
    urlopenAttempts outcomes 0 i = 1 := by
  unfold urlopenAttempts
  split <;> rfl

/-- Unfolding equation: a retryable outcome consumes one retry. -/
theorem urlopenAttempts_succ (outcomes : Nat → AttemptOutcome) (r i : Nat) :
    urlopenAttempts outcomes (r + 1) i =
      if retryableOutcome (outcomes i) = true then 1 + urlopenAttempts outcomes r (i + 1)
      else 1 := by
  conv_lhs => unfold urlopenAttempts

/-- The retry loop with `r` retries remaining issues at most `r + 1`
attempts. -/
theorem urlopenAttempts_le (outcomes : Nat → AttemptOutcome) :
    ∀ (r i : Nat), urlopenAttempts outcomes r i ≤ r + 1 := by
  intro r
  induction r with
  | zero =>
    intro i
    rw [urlopenAttempts_zero]
  | succ n ih =>
    intro i
    rw [urlopenAttempts_succ]
    split
    · have := ih (i + 1)
      omega
    · omega

/-- Every attempt before a further one had a retryable outcome: a
network-level failure or a forcelist status. -/
theorem urlopenAttempts_retryable (outcomes : Nat → AttemptOutcome) :
    ∀ (r i j : Nat), j + 1 < urlopenAttempts outcomes r i →
      retryableOutcome (outcomes (i + j)) = true := by
  intro r
  induction r with
  | zero =>
    intro i j hj
    rw [urlopenAttempts_zero] at hj
    omega
  | succ n ih =>
    intro i j hj
    rw [urlopenAttempts_succ] at hj
    by_cases hr : retryableOutcome (outcomes i) = true
    · rw [if_pos hr] at hj
      cases j with
      | zero => simpa using hr
      | succ k =>
        have hk : k + 1 < urlopenAttempts outcomes n (i + 1) := by omega
        have := ih (i + 1) k hk
        have harith : i + 1 + k = i + (k + 1) := by omega
        rwa [harith] at this
    · rw [if_neg hr] at hj
      omega

/-- C3 (amended): `session.get` under `Retry(total=5, ...)` issues at most
6 HTTP attempts (one initial plus up to 5 retries); an attempt is followed
by another only when it ended in a network-level failure or a response
with status in {429, 500, 502, 503, 504}; the backoff delays before
retries 1..5 with `backoff_factor=1` are 0, 2, 4, 8 and 16 seconds; and a
fetch that receives 503 on the first attempt and 200 on the second is an
overall success after exactly 2 attempts, carrying the final status code,
headers and body. -/
theorem C3_retry_policy (outcomes : Nat → AttemptOutcome)
    (hs : List (String × String)) (body : String) (elapsed : Int) :
    session_get_attempts outcomes ≤ 6 ∧
    (∀ j, j + 1 < session_get_attempts outcomes → retryableOutcome (outcomes j) = true) ∧
    (List.range 5).map (fun k => get_backoff_time 1 (k + 1)) = [0, 2, 4, 8, 16] ∧
    fetch_website_content
        (fun i => if i = 0 then AttemptOutcome.response 503 [] ""
                  else AttemptOutcome.response 200 hs body) elapsed =
      ⟨some body, StatusVal.code 200, hs, elapsed⟩ ∧
    session_get_attempts
        (fun i => if i = 0 then AttemptOutcome.response 503 [] ""
                  else AttemptOutcome.response 200 hs body) = 2 := by
  refine ⟨urlopenAttempts_le outcomes 5 0, ?_, by decide, ?_, ?_⟩
  · intro j hj
    have := urlopenAttempts_retryable outcomes 5 0 j hj
    simpa using this
  · have hsess : session_get
        (fun i => if i = 0 then AttemptOutcome.response 503 [] ""
                  else AttemptOutcome.response 200 hs body) =
        SessionResult.resp 200 hs body := by
      show urlopenRetry _ 5 0 = _
      unfold urlopenRetry
      simp [retryableOutcome, status_forcelist]
      unfold urlopenRetry
      simp [retryableOutcome, status_forcelist]
    simp [fetch_website_content, hsess]
  · show urlopenAttempts _ 5 0 = 2
    unfold urlopenAttempts
    simp [retryableOutcome, status_forcelist]
    unfold urlopenAttempts
    simp [retryableOutcome, status_forcelist]

/-- Witness for C3: concrete inputs discharging each hypothesis — an
all-failing environment has more than one attempt, and its first attempt's
outcome was indeed retryable. -/
theorem C3_retry_policy_witness :
    retryableOutcome ((fun _ => AttemptOutcome.netFail) 0) = true :=
  (C3_retry_policy (fun _ => AttemptOutcome.netFail) [] "" 0).2.1 0 (by decide)

/-- Counterexample to C3 as stated: with every attempt failing at the
network level, the session issues 6 HTTP attempts, not at most 5 —
urllib3's `Retry(total=5)` allows 5 retries after the initial request. -/
theorem C3_counterexample :
    session_get_attempts (fun _ => AttemptOutcome.netFail) = 6 ∧
    ¬ session_get_attempts (fun _ => AttemptOutcome.netFail) ≤ 5 := by
  constructor
  · decide
  · decide

/-! ## C1 — extraction is not total: it raises on a malformed link URL -/

/-- C1 (code bug): the spec requires extraction to be total and never to
raise, but a page containing `<a href="http://[">` makes `count_links`
hand `urljoin`/`urlsplit` a netloc with an unbalanced bracket, and the
resulting `ValueError("Invalid IPv6 URL")` propagates uncaught out of
`smart_scrape` — there is no `try` around `count_links` or around the
`smart_scrape` call at line 352, so it also escapes `main`'s routing
(second conjunct). On a document with none of the targeted elements the
intended behaviour does hold: the returned record has every field at its
documented sentinel (third conjunct). -/
theorem C1_extraction_raises :
    smart_scrape (fun _ => (none : Option Nat))
        [⟨"a", [("href", "http://[")], none, []⟩] "http://a.com/x" [] 0 =
      Except.error "Invalid IPv6 URL" ∧
    process_fetch_result (fun _ => [⟨"a", [("href", "http://[")], none, []⟩])
        (fun _ => (none : Option Nat)) "http://a.com/x"
        ⟨some "<a href=\"http://[\">", StatusVal.code 200, [], 1⟩ =
      Except.error "Invalid IPv6 URL" ∧
    smart_scrape (fun _ => (none : Option Nat)) [⟨"div", [], none, []⟩] "http://e.com" [] 3 =
      Except.ok (sentinelRecord 3) := by
  refine ⟨rfl, rfl, rfl⟩

/-! ## C4 — non-emptiness of sequence fields -/

/-- When `find_favicons` returns a value, the sentinel wrapper has made
its list non-empty. -/
theorem find_favicons_ok_ne_nil {doc : Doc} {b : String} {l : List String}
    (h : find_favicons doc b = Except.ok l) : l ≠ [] := by
  unfold find_favicons at h
  cases hl : faviconsLoop b (findAll doc "link") [] with
  | error e =>
    rw [hl] at h
    exact absurd h (by simp)
  | ok icons =>
    rw [hl] at h
    have hshape : (if icons.isEmpty then ["Not found"] else icons) = l := by
      simpa using h
    rw [← hshape]
    exact sentinelized_ne_nil _ _

/-- When `get_main_images` returns a value, the sentinel wrapper has made
its list non-empty. -/
theorem get_main_images_ok_ne_nil {doc : Doc} {b : String} {l : List String}
    (h : get_main_images doc b = Except.ok l) : l ≠ [] := by
  unfold get_main_images at h
  cases hl : imagesLoop b ((findAll doc "img").filter (fun t => (getAttr t "src").isSome)) [] with
  | error e =>
    rw [hl] at h
    exact absurd h (by simp)
  | ok images =>
    rw [hl] at h
    have hshape : (if images.isEmpty then ["Not found"] else images) = l := by
      simpa using h
    rw [← hshape]
    exact sentinelized_ne_nil _ _

/-- Destructuring a successful `smart_scrape`: every URL-resolving helper
returned a value and the record is the dict of lines 189-212 built from
them and the pure per-field extractions. -/
theorem smart_scrape_ok_shape {α : Type} {parse : String → Option α} {doc : Doc}
    {base_url : String} {hdrs : List (String × String)} {load : Int}
    {r : ScrapedData α}
    (hr : smart_scrape parse doc base_url hdrs load = Except.ok r) :
    ∃ favicons main_images canonical links,
      find_favicons doc base_url = Except.ok favicons ∧
      get_main_images doc base_url = Except.ok main_images ∧
      get_canonical_url doc base_url = Except.ok canonical ∧
      count_links doc base_url = Except.ok links ∧
      r = { title := scrape_title doc
            meta_description := scrape_meta_description doc
            meta_keywords := scrape_meta_keywords doc
            headlines := scrape_headlines doc
            subheadlines := scrape_subheadlines doc
            summaries := scrape_summaries doc
            charset := scrape_charset doc
            lang := scrape_lang doc
            json_ld := extract_json_ld parse doc
            open_graph := extract_open_graph doc
            favicons := favicons
            main_images := main_images
            canonical_url := canonical
            robots_meta := get_robots_meta doc
            internal_links_count := links.1.length
            external_links_count := links.2.length
            internal_links_sample :=
              if (links.1.take 5).isEmpty then ["None"] else links.1.take 5
            external_links_sample :=
              if (links.2.take 5).isEmpty then ["None"] else links.2.take 5
            last_modified := headerGet hdrs "Last-Modified" "Not found"
            content_length := headerGet hdrs "Content-Length" "Unknown"
            server := headerGet hdrs "Server" "Unknown"
            load_time := load } := by
  unfold smart_scrape at hr
  cases h1 : find_favicons doc base_url with
  | error e =>
    rw [h1] at hr
    exact absurd hr (by simp)
  | ok favs =>
    rw [h1] at hr
    cases h2 : get_main_images doc base_url with
    | error e =>
      rw [h2] at hr
      exact absurd hr (by simp)
    | ok imgs =>
      rw [h2] at hr
      cases h3 : get_canonical_url doc base_url with
      | error e =>
        rw [h3] at hr
        exact absurd hr (by simp)
      | ok canon =>
        rw [h3] at hr
        cases h4 : count_links doc base_url with
        | error e =>
          rw [h4] at hr
          exact absurd hr (by simp)
        | ok links =>
          rw [h4] at hr
          refine ⟨favs, imgs, canon, links, rfl, rfl, rfl, rfl, ?_⟩
          simpa using hr.symm

/-- C4 (amended): every sequence-valued field of any record the extractor
returns is non-empty (the sentinel is substituted when the underlying
extraction is empty); the failure-synthesized record's sequence fields are
likewise non-empty **except** its internal and external link samples,
which are the empty list. -/
theorem C4_sequence_fields {α : Type} (parse : String → Option α) (doc : Doc)
    (base_url : String) (hdrs : List (String × String)) (load : Int)
    (r : ScrapedData α)
    (hr : smart_scrape parse doc base_url hdrs load = Except.ok r) :
    (r.headlines ≠ [] ∧ r.subheadlines ≠ [] ∧ r.summaries ≠ [] ∧ r.favicons ≠ [] ∧
     r.main_images ≠ [] ∧ r.internal_links_sample ≠ [] ∧ r.external_links_sample ≠ [] ∧
     r.json_ld ≠ []) ∧
    ((@failure_scraped_data α).headlines ≠ [] ∧
     (@failure_scraped_data α).subheadlines ≠ [] ∧
     (@failure_scraped_data α).summaries ≠ [] ∧
     (@failure_scraped_data α).favicons ≠ [] ∧
     (@failure_scraped_data α).main_images ≠ [] ∧
     (@failure_scraped_data α).json_ld ≠ [] ∧
     (@failure_scraped_data α).internal_links_sample = [] ∧
     (@failure_scraped_data α).external_links_sample = []) := by
  obtain ⟨favs, imgs, canon, links, h1, h2, h3, h4, hre⟩ := smart_scrape_ok_shape hr
  subst hre
  constructor
  · exact ⟨sentinelized_ne_nil _ _, sentinelized_ne_nil _ _, sentinelized_ne_nil _ _,
      find_favicons_ok_ne_nil h1, get_main_images_ok_ne_nil h2,
      sentinelized_ne_nil _ _, sentinelized_ne_nil _ _, sentinelized_ne_nil _ _⟩
  · simp [failure_scraped_data]

/-- Witness for C4 at the empty document, whose extraction succeeds with
the all-sentinel record. -/
theorem C4_sequence_fields_witness :
    (((sentinelRecord 0).headlines ≠ [] ∧ (sentinelRecord 0).subheadlines ≠ [] ∧
      (sentinelRecord 0).summaries ≠ [] ∧ (sentinelRecord 0).favicons ≠ [] ∧
      (sentinelRecord 0).main_images ≠ [] ∧ (sentinelRecord 0).internal_links_sample ≠ [] ∧
      (sentinelRecord 0).external_links_sample ≠ [] ∧ (sentinelRecord 0).json_ld ≠ []) ∧
     ((@failure_scraped_data Nat).headlines ≠ [] ∧
      (@failure_scraped_data Nat).subheadlines ≠ [] ∧
      (@failure_scraped_data Nat).summaries ≠ [] ∧
      (@failure_scraped_data Nat).favicons ≠ [] ∧
      (@failure_scraped_data Nat).main_images ≠ [] ∧
      (@failure_scraped_data Nat).json_ld ≠ [] ∧
      (@failure_scraped_data Nat).internal_links_sample = [] ∧
      (@failure_scraped_data Nat).external_links_sample = [])) :=
  C4_sequence_fields (fun _ => (none : Option Nat)) [] "http://e.com" [] 0
    (sentinelRecord 0) rfl

/-- Counterexample to C4 as stated: the record synthesized by `main` after
a fetch failure carries **empty** internal and external link samples, and
it is exactly what reaches the formatter for a failed fetch. -/
theorem C4_counterexample :
    (@failure_scraped_data Nat).internal_links_sample = [] ∧
    (@failure_scraped_data Nat).external_links_sample = [] ∧
    process_fetch_result (fun _ => ([] : Doc)) (fun _ => (none : Option Nat)) "http://a.com"
      ⟨none, StatusVal.na, [], 0⟩ = Except.ok (@failure_scraped_data Nat) :=
  ⟨rfl, rfl, rfl⟩

/-! ## C6 — title extraction -/

/-- C6 (amended): the title field of any record the extractor returns is
the line-146 computation `scrape_title`: the trimmed `.string` of the
first title element when that string is present and non-empty *before*
trimming; the sentinel when the element is absent, has no string, or its
string is the empty string. A whitespace-only string is truthy, so it is
trimmed to the empty string rather than replaced by the sentinel. -/
theorem C6_title (parse : String → Option Nat) (doc : Doc)
    (base_url : String) (hdrs : List (String × String)) (load : Int) :
    (∀ r, smart_scrape parse doc base_url hdrs load = Except.ok r →
      r.title = scrape_title doc) ∧
    ((findAll doc "title").head? = none → scrape_title doc = "Title not found") ∧
    (∀ t, (findAll doc "title").head? = some t →
      (t.strText = none → scrape_title doc = "Title not found") ∧
      (t.strText = some "" → scrape_title doc = "Title not found") ∧
      (∀ s, t.strText = some s → s ≠ "" → scrape_title doc = pyStrip s)) := by
  refine ⟨?_, ?_, ?_⟩
  · intro r hr
    obtain ⟨favs, imgs, canon, links, _, _, _, _, hre⟩ := smart_scrape_ok_shape hr
    subst hre
    rfl
  · intro h
    simp [scrape_title, h]
  · intro t ht
    refine ⟨?_, ?_, ?_⟩
    · intro hs
      simp [scrape_title, ht, hs]
    · intro hs
      simp [scrape_title, ht, hs]
    · intro s hs hne
      simp [scrape_title, ht, hs, hne]

/-- Witness for C6: a title whose string is `" Hi "` yields `"Hi"`. -/
theorem C6_title_witness :
    scrape_title [⟨"title", [], some " Hi ", [" Hi "]⟩] = pyStrip " Hi " :=
  ((C6_title (fun _ => (none : Option Nat)) [⟨"title", [], some " Hi ", [" Hi "]⟩]
      "http://e.com" [] 0).2.2 ⟨"title", [], some " Hi ", [" Hi "]⟩ rfl).2.2
    " Hi " rfl (by decide)

/-- Counterexample to C6 as stated: a title element whose text is
whitespace-only (so empty after trimming) produces the empty string, not
the `"Title not found"` sentinel the claim requires. -/
theorem C6_counterexample :
    (smart_scrape (fun _ => (none : Option Nat)) [⟨"title", [], some " ", [" "]⟩]
        "http://e.com" [] 0).map ScrapedData.title = Except.ok "" ∧
    pyStrip " " = "" ∧
    ("" : String) ≠ "Title not found" := by
  refine ⟨rfl, rfl, by decide⟩

/-! ## C7 — summary paragraph selection -/

/-- C7 (amended): the summaries field of any record the extractor returns
is the line-160-164 computation `scrape_summaries`: when at least one
qualifying paragraph exists, exactly the first at-most-5 paragraph texts,
in document order, that are non-empty and strictly longer than 50
characters after trimming; when none exists, the one-element sentinel
list. Every qualifying text has length strictly greater than 50, and in
the concrete boundary document a 50-character paragraph is excluded while
the 51-character one is selected. -/
theorem C7_summaries {α : Type} (parse : String → Option α) (doc : Doc)
    (base_url : String) (hdrs : List (String × String)) (load : Int) :
    (∀ r, smart_scrape parse doc base_url hdrs load = Except.ok r →
      r.summaries = scrape_summaries doc) ∧
    (scrape_paragraphs doc ≠ [] →
      scrape_summaries doc = (scrape_paragraphs doc).take 5) ∧
    (scrape_paragraphs doc = [] →
      scrape_summaries doc = ["No meaningful paragraphs found"]) ∧
    (∀ s ∈ scrape_paragraphs doc, s ≠ "" ∧ 50 < s.length) ∧
    scrape_summaries
        [⟨"p", [], none, [String.mk (List.replicate 50 'a')]⟩,
         ⟨"p", [], none, [String.mk (List.replicate 51 'b')]⟩]
      = [String.mk (List.replicate 51 'b')] := by
  refine ⟨?_, ?_, ?_, ?_, ?_⟩
  · intro r hr
    obtain ⟨favs, imgs, canon, links, _, _, _, _, hre⟩ := smart_scrape_ok_shape hr
    subst hre
    rfl
  · intro h
    have htake : (scrape_paragraphs doc).take 5 ≠ [] := by
      simp [List.take_eq_nil_iff, h]
    simp [scrape_summaries, List.isEmpty_iff, htake]
  · intro h
    simp [scrape_summaries, h]
  · intro s hsmem
    have := List.mem_filter.mp hsmem
    have hb := this.2
    simp only [Bool.and_eq_true, decide_eq_true_eq, ne_eq] at hb
    exact ⟨by simpa using hb.1, hb.2⟩
  · rfl

/-- Witness for C7: a single 51-character paragraph is selected. -/
theorem C7_summaries_witness :
    scrape_summaries [⟨"p", [], none, [String.mk (List.replicate 51 'b')]⟩]
      = (scrape_paragraphs [⟨"p", [], none, [String.mk (List.replicate 51 'b')]⟩]).take 5 :=
  (C7_summaries (fun _ => (none : Option Nat))
      [⟨"p", [], none, [String.mk (List.replicate 51 'b')]⟩] "http://e.com" [] 0).2.1
    (by decide)

/-- Counterexample to C7 as stated: with zero qualifying paragraphs the
field is the one-element sentinel list, not the (empty) list of "the
first at-most-5 qualifying paragraphs" the claim prescribes. -/
theorem C7_counterexample :
    (smart_scrape (fun _ => (none : Option Nat)) [] "http://e.com" [] 0).map
        ScrapedData.summaries = Except.ok ["No meaningful paragraphs found"] ∧
    scrape_paragraphs [] = [] ∧
    (["No meaningful paragraphs found"] : List String) ≠ [] := by
  exact ⟨rfl, rfl, by simp⟩

/-! ## C2 — link classification -/

/-- Membership after a Python-set insertion. -/
theorem mem_addSet (s : List String) (u x : String) :
    x ∈ addSet s u ↔ x ∈ s ∨ x = u := by
  unfold addSet
  split
  · next hmem =>
    constructor
    · exact Or.inl
    · rintro (hx | rfl)
      · exact hx
      · exact hmem
  · simp

/-- Python-set insertion preserves freedom from duplicates. -/
theorem nodup_addSet {s : List String} (u : String) (h : s.Nodup) :
    (addSet s u).Nodup := by
  unfold addSet
  split
  · exact h
  · next hmem => simpa [List.nodup_append] using ⟨h, hmem⟩

/-- The lower-cased host of a URL, as `count_links` computes it
(`urlparse(u).netloc.lower()`); the error branch is the `ValueError`
`urlparse` may raise. -/
def linkDomain (x : String) : Except String String :=
  (urlparse x).map (fun pu => pyLower pu.netloc)

/-- The internal-link test of `count_links`: the resolved URL's host
equals the base URL's host case-insensitively. -/
def isInternal (base_url x : String) : Prop :=
  linkDomain x = linkDomain base_url

/-- `x` is the successful resolution of the trimmed href of some anchor in
`l` that passes the skip test (not a bare fragment, not a `javascript:`
link). -/
def linkContrib (base_url : String) (l : List Tag) (x : String) : Prop :=
  ∃ t ∈ l, ∃ h, getAttr t "href" = some h ∧ skipHref (pyStrip h) = false ∧
    urljoin base_url (pyStrip h) = Except.ok x

/-- Decomposition of the contribution predicate over a cons. -/
theorem linkContrib_cons (base : String) (t : Tag) (l : List Tag) (x : String) :
    linkContrib base (t :: l) x ↔
      (∃ h, getAttr t "href" = some h ∧ skipHref (pyStrip h) = false ∧
        urljoin base (pyStrip h) = Except.ok x) ∨ linkContrib base l x := by
  constructor
  · rintro ⟨t', ht', hrest⟩
    rcases List.mem_cons.mp ht' with rfl | hmem
    · exact Or.inl hrest
    · exact Or.inr ⟨t', hmem, hrest⟩
  · rintro (ht | ⟨t', hmem, hrest⟩)
    · exact ⟨t, List.mem_cons_self t l, ht⟩
    · exact ⟨t', List.mem_cons_of_mem t hmem, hrest⟩

/-- Unfolding: a failing anchor aborts the whole `count_links` loop. -/
theorem linkLoop_cons_error (base bd : String) (t : Tag) (rest : List Tag)
    (acc : List String × List String) (e : String)
    (hstep : linkStep base bd acc t = Except.error e) :
    linkLoop base bd (t :: rest) acc = Except.error e := by
  conv_lhs => unfold linkLoop
  rw [hstep]

/-- Unfolding: a successful anchor feeds the next iteration. -/
theorem linkLoop_cons_ok (base bd : String) (t : Tag) (rest : List Tag)
    (acc acc' : List String × List String)
    (hstep : linkStep base bd acc t = Except.ok acc') :
    linkLoop base bd (t :: rest) acc = linkLoop base bd rest acc' := by
  conv_lhs => unfold linkLoop
  rw [hstep]

/-- `linkStep` on an anchor without an href attribute. -/
theorem linkStep_none (base bd : String) (acc : List String × List String) (t : Tag)
    (hh : getAttr t "href" = none) :
    linkStep base bd acc t = Except.ok acc := by
  unfold linkStep
  rw [hh]

/-- `linkStep` on a fragment or `javascript:` href. -/
theorem linkStep_skip (base bd : String) (acc : List String × List String) (t : Tag)
    (h : String) (hh : getAttr t "href" = some h) (hs : skipHref (pyStrip h) = true) :
    linkStep base bd acc t = Except.ok acc := by
  unfold linkStep
  rw [hh]
  simp [hs]

/-- `linkStep` when `urljoin` raises. -/
theorem linkStep_join_error (base bd : String) (acc : List String × List String) (t : Tag)
    (h e : String) (hh : getAttr t "href" = some h) (hs : skipHref (pyStrip h) = false)
    (hj : urljoin base (pyStrip h) = Except.error e) :
    linkStep base bd acc t = Except.error e := by
  unfold linkStep
  rw [hh]
  simp [hs, hj]

/-- `linkStep` when re-parsing the joined URL raises. -/
theorem linkStep_parse_error (base bd : String) (acc : List String × List String) (t : Tag)
    (h u e : String) (hh : getAttr t "href" = some h) (hs : skipHref (pyStrip h) = false)
    (hj : urljoin base (pyStrip h) = Except.ok u) (hp : urlparse u = Except.error e) :
    linkStep base bd acc t = Except.error e := by
  unfold linkStep
  rw [hh]
  simp [hs, hj, hp]

/-- `linkStep` on an internal link. -/
theorem linkStep_internal (base bd : String) (acc : List String × List String) (t : Tag)
    (h u : String) (pu : SplitUrl) (hh : getAttr t "href" = some h)
    (hs : skipHref (pyStrip h) = false) (hj : urljoin base (pyStrip h) = Except.ok u)
    (hp : urlparse u = Except.ok pu) (hd : pyLower pu.netloc = bd) :
    linkStep base bd acc t = Except.ok (addSet acc.1 u, acc.2) := by
  unfold linkStep
  rw [hh]
  simp [hs, hj, hp, hd]

/-- `linkStep` on an external link. -/
theorem linkStep_external (base bd : String) (acc : List String × List String) (t : Tag)
    (h u : String) (pu : SplitUrl) (hh : getAttr t "href" = some h)
    (hs : skipHref (pyStrip h) = false) (hj : urljoin base (pyStrip h) = Except.ok u)
    (hp : urlparse u = Except.ok pu) (hd : ¬ pyLower pu.netloc = bd) :
    linkStep base bd acc t = Except.ok (acc.1, addSet acc.2 u) := by
  unfold linkStep
  rw [hh]
  simp [hs, hj, hp, hd]

/-- Membership invariant of a returning `count_links` loop: a URL is in
the internal (resp. external) component iff it was already in the
accumulator or it is contributed by some anchor and its host matches
(resp. does not match) the base host. -/
theorem linkLoop_mem (base bd : String) (hbd : linkDomain base = Except.ok bd) :
    ∀ (l : List Tag) (acc : List String × List String) (I E : List String),
      linkLoop base bd l acc = Except.ok (I, E) →
      ∀ x,
        (x ∈ I ↔ x ∈ acc.1 ∨ (linkContrib base l x ∧ isInternal base x)) ∧
        (x ∈ E ↔ x ∈ acc.2 ∨ (linkContrib base l x ∧ ¬ isInternal base x)) := by
  intro l
  induction l with
  | nil =>
    intro acc I E hok x
    have hacc : acc = (I, E) := by simpa [linkLoop] using hok
    subst hacc
    simp [linkContrib]
  | cons t rest ih =>
    intro acc I E hok x
    cases hh : getAttr t "href" with
    | none =>
      rw [linkLoop_cons_ok base bd t rest acc acc (linkStep_none base bd acc t hh)] at hok
      have hnone : linkContrib base (t :: rest) x ↔ linkContrib base rest x := by
        rw [linkContrib_cons]
        simp [hh]
      rw [hnone]
      exact ih acc I E hok x
    | some h =>
      by_cases hskip : skipHref (pyStrip h) = true
      · rw [linkLoop_cons_ok base bd t rest acc acc
          (linkStep_skip base bd acc t h hh hskip)] at hok
        have hsk : linkContrib base (t :: rest) x ↔ linkContrib base rest x := by
          rw [linkContrib_cons]
          simp [hh, hskip]
        rw [hsk]
        exact ih acc I E hok x
      · have hskip' : skipHref (pyStrip h) = false := by simpa using hskip
        cases hj : urljoin base (pyStrip h) with
        | error e =>
          rw [linkLoop_cons_error base bd t rest acc e
            (linkStep_join_error base bd acc t h e hh hskip' hj)] at hok
          exact absurd hok (by simp)
        | ok u =>
          have hone : ∀ u', linkContrib base (t :: rest) u' ↔
              (u = u' ∨ linkContrib base rest u') := by
            intro u'
            rw [linkContrib_cons]
            constructor
            · rintro (⟨h', hh', hs', hj'⟩ | hc)
              · rw [hh] at hh'
                obtain rfl : h = h' := Option.some.inj hh'
                rw [hj] at hj'
                exact Or.inl (Except.ok.inj hj')
              · exact Or.inr hc
            · rintro (rfl | hc)
              · exact Or.inl ⟨h, hh, hskip', hj⟩
              · exact Or.inr hc
          cases hp : urlparse u with
          | error e =>
            rw [linkLoop_cons_error base bd t rest acc e
              (linkStep_parse_error base bd acc t h u e hh hskip' hj hp)] at hok
            exact absurd hok (by simp)
          | ok pu =>
            by_cases hd : pyLower pu.netloc = bd
            · rw [linkLoop_cons_ok base bd t rest acc (addSet acc.1 u, acc.2)
                (linkStep_internal base bd acc t h u pu hh hskip' hj hp hd)] at hok
              have hint : isInternal base u := by
                unfold isInternal
                rw [hbd]
                simp [linkDomain, hp, hd, Except.map]
              have iha := ih (addSet acc.1 u, acc.2) I E hok x
              constructor
              · rw [iha.1, hone x]
                simp only [mem_addSet]
                constructor
                · rintro ((hx | rfl) | ⟨hc, hi⟩)
                  · exact Or.inl hx
                  · exact Or.inr ⟨Or.inl rfl, hint⟩
                  · exact Or.inr ⟨Or.inr hc, hi⟩
                · rintro (hx | ⟨(rfl | hc), hi⟩)
                  · exact Or.inl (Or.inl hx)
                  · exact Or.inl (Or.inr rfl)
                  · exact Or.inr ⟨hc, hi⟩
              · rw [iha.2, hone x]
                constructor
                · rintro (hx | ⟨hc, hi⟩)
                  · exact Or.inl hx
                  · exact Or.inr ⟨Or.inr hc, hi⟩
                · rintro (hx | ⟨(rfl | hc), hi⟩)
                  · exact Or.inl hx
                  · exact absurd hint hi
                  · exact Or.inr ⟨hc, hi⟩
            · rw [linkLoop_cons_ok base bd t rest acc (acc.1, addSet acc.2 u)
                (linkStep_external base bd acc t h u pu hh hskip' hj hp hd)] at hok
              have hnotint : ¬ isInternal base u := by
                unfold isInternal
                rw [hbd]
                simp [linkDomain, hp, Except.map]
                exact hd
              have iha := ih (acc.1, addSet acc.2 u) I E hok x
              constructor
              · rw [iha.1, hone x]
                constructor
                · rintro (hx | ⟨hc, hi⟩)
                  · exact Or.inl hx
                  · exact Or.inr ⟨Or.inr hc, hi⟩
                · rintro (hx | ⟨(rfl | hc), hi⟩)
                  · exact Or.inl hx
                  · exact absurd hi hnotint
                  · exact Or.inr ⟨hc, hi⟩
              · rw [iha.2, hone x]
                simp only [mem_addSet]
                constructor
                · rintro ((hx | rfl) | ⟨hc, hi⟩)
                  · exact Or.inl hx
                  · exact Or.inr ⟨Or.inl rfl, hnotint⟩
                  · exact Or.inr ⟨Or.inr hc, hi⟩
                · rintro (hx | ⟨(rfl | hc), hi⟩)
                  · exact Or.inl (Or.inl hx)
                  · exact Or.inl (Or.inr rfl)
                  · exact Or.inr ⟨hc, hi⟩

/-- Each returning `count_links` iteration keeps both sets
duplicate-free. -/
theorem linkStep_nodup (base bd : String) (acc acc' : List String × List String) (t : Tag)
    (h1 : acc.1.Nodup) (h2 : acc.2.Nodup)
    (hstep : linkStep base bd acc t = Except.ok acc') :
    acc'.1.Nodup ∧ acc'.2.Nodup := by
  cases hh : getAttr t "href" with
  | none =>
    rw [linkStep_none base bd acc t hh] at hstep
    obtain rfl : acc = acc' := by simpa using hstep
    exact ⟨h1, h2⟩
  | some h =>
    by_cases hskip : skipHref (pyStrip h) = true
    · rw [linkStep_skip base bd acc t h hh hskip] at hstep
      obtain rfl : acc = acc' := by simpa using hstep
      exact ⟨h1, h2⟩
    · have hskip' : skipHref (pyStrip h) = false := by simpa using hskip
      cases hj : urljoin base (pyStrip h) with
      | error e =>
        rw [linkStep_join_error base bd acc t h e hh hskip' hj] at hstep
        exact absurd hstep (by simp)
      | ok u =>
        cases hp : urlparse u with
        | error e =>
          rw [linkStep_parse_error base bd acc t h u e hh hskip' hj hp] at hstep
          exact absurd hstep (by simp)
        | ok pu =>
          by_cases hd : pyLower pu.netloc = bd
          · rw [linkStep_internal base bd acc t h u pu hh hskip' hj hp hd] at hstep
            obtain rfl : (addSet acc.1 u, acc.2) = acc' := by simpa using hstep
            exact ⟨nodup_addSet _ h1, h2⟩
          · rw [linkStep_external base bd acc t h u pu hh hskip' hj hp hd] at hstep
            obtain rfl : (acc.1, addSet acc.2 u) = acc' := by simpa using hstep
            exact ⟨h1, nodup_addSet _ h2⟩

/-- A returning `count_links` loop keeps both sets duplicate-free. -/
theorem linkLoop_nodup (base bd : String) :
    ∀ (l : List Tag) (acc : List String × List String) (I E : List String),
      acc.1.Nodup → acc.2.Nodup → linkLoop base bd l acc = Except.ok (I, E) →
      I.Nodup ∧ E.Nodup := by
  intro l
  induction l with
  | nil =>
    intro acc I E h1 h2 hok
    have hacc : acc = (I, E) := by simpa [linkLoop] using hok
    rw [hacc] at h1 h2
    exact ⟨h1, h2⟩
  | cons t rest ih =>
    intro acc I E h1 h2 hok
    cases hstep : linkStep base bd acc t with
    | error e =>
      rw [linkLoop_cons_error base bd t rest acc e hstep] at hok
      exact absurd hok (by simp)
    | ok acc' =>
      rw [linkLoop_cons_ok base bd t rest acc acc' hstep] at hok
      have hnd := linkStep_nodup base bd acc acc' t h1 h2 hstep
      exact ih acc' I E hnd.1 hnd.2 hok

/-- Destructuring a returning `count_links`: the base URL parsed and the
loop ran to completion on the lower-cased base host. -/
theorem count_links_ok_loop {doc : Doc} {base_url : String} {I E : List String}
    (hok : count_links doc base_url = Except.ok (I, E)) :
    ∃ pb, urlparse base_url = Except.ok pb ∧
      linkLoop base_url (pyLower pb.netloc) (anchorsWithHref doc) ([], []) =
        Except.ok (I, E) := by
  unfold count_links at hok
  cases hpb : urlparse base_url with
  | error e =>
    rw [hpb] at hok
    exact absurd hok (by simp)
  | ok pb =>
    rw [hpb] at hok
    exact ⟨pb, rfl, by simpa using hok⟩

/-- C2 (amended): whenever `count_links` returns — no anchor href makes
`urljoin`/`urlparse` raise — the internal and external collections are
disjoint and duplicate-free; together they contain exactly the successful
absolute resolutions of the trimmed href of every anchor **that has an
href attribute** (the empty href included — it resolves to the base URL
itself) and is neither a bare fragment nor a `javascript:` pseudo-link;
and a resolved link is internal iff its host equals the base URL's host
case-insensitively. An anchor href with an unbalanced bracket netloc
makes `count_links` raise `ValueError("Invalid IPv6 URL")` instead of
returning any partition (last conjunct). -/
theorem C2_link_partition (doc : Doc) (base_url : String) :
    (∀ I E, count_links doc base_url = Except.ok (I, E) →
      (∀ x, x ∈ I → x ∉ E) ∧
      (∀ x, x ∈ I ↔ linkContrib base_url (anchorsWithHref doc) x ∧ isInternal base_url x) ∧
      (∀ x, x ∈ E ↔ linkContrib base_url (anchorsWithHref doc) x ∧ ¬ isInternal base_url x) ∧
      (∀ x, (x ∈ I ∨ x ∈ E) ↔ linkContrib base_url (anchorsWithHref doc) x) ∧
      I.Nodup ∧ E.Nodup) ∧
    count_links [⟨"a", [("href", "http://[")], none, []⟩] "http://a.com/x" =
      Except.error "Invalid IPv6 URL" := by
  constructor
  · intro I E hok
    obtain ⟨pb, hpb, hloop⟩ := count_links_ok_loop hok
    have hbd : linkDomain base_url = Except.ok (pyLower pb.netloc) := by
      simp [linkDomain, hpb, Except.map]
    have hmem := linkLoop_mem base_url (pyLower pb.netloc) hbd (anchorsWithHref doc)
      ([], []) I E hloop
    have hnd := linkLoop_nodup base_url (pyLower pb.netloc) (anchorsWithHref doc)
      ([], []) I E (by simp) (by simp) hloop
    have hfst : ∀ x, x ∈ I ↔
        linkContrib base_url (anchorsWithHref doc) x ∧ isInternal base_url x := by
      intro x
      have := (hmem x).1
      simpa using this
    have hsnd : ∀ x, x ∈ E ↔
        linkContrib base_url (anchorsWithHref doc) x ∧ ¬ isInternal base_url x := by
      intro x
      have := (hmem x).2
      simpa using this
    refine ⟨?_, hfst, hsnd, ?_, hnd.1, hnd.2⟩
    · intro x hx1 hx2
      exact ((hsnd x).mp hx2).2 ((hfst x).mp hx1).2
    · intro x
      constructor
      · rintro (hx | hx)
        · exact ((hfst x).mp hx).1
        · exact ((hsnd x).mp hx).1
      · intro hc
        by_cases hi : isInternal base_url x
        · exact Or.inl ((hfst x).mpr ⟨hc, hi⟩)
        · exact Or.inr ((hsnd x).mpr ⟨hc, hi⟩)
  · rfl

/-- Witness for C2 on the spec's own example page: applying the theorem
at its computed partition shows the case-insensitively matching
`https://A.COM/z` is a contributed internal link. -/
theorem C2_link_partition_witness :
    linkContrib "http://a.com/x"
      (anchorsWithHref
        [⟨"a", [("href", "http://a.com/y")], none, []⟩,
         ⟨"a", [("href", "https://A.COM/z")], none, []⟩,
         ⟨"a", [("href", "http://b.com/w")], none, []⟩,
         ⟨"a", [("href", "#frag")], none, []⟩,
         ⟨"a", [("href", "javascript:void(0)")], none, []⟩])
      "https://A.COM/z" ∧ isInternal "http://a.com/x" "https://A.COM/z" :=
  (((C2_link_partition
      [⟨"a", [("href", "http://a.com/y")], none, []⟩,
       ⟨"a", [("href", "https://A.COM/z")], none, []⟩,
       ⟨"a", [("href", "http://b.com/w")], none, []⟩,
       ⟨"a", [("href", "#frag")], none, []⟩,
       ⟨"a", [("href", "javascript:void(0)")], none, []⟩] "http://a.com/x").1
     ["http://a.com/y", "https://A.COM/z"] ["http://b.com/w"] rfl).2.1
    "https://A.COM/z").mp (by decide)

/-- Counterexample to C2 as stated: an anchor whose href attribute is the
**empty string** is still processed (`find_all("a", href=True)` matches
attribute presence, and `""` is neither a fragment nor a script link), and
`urljoin` resolves it to the base URL itself — so the union of the two
collections is non-empty although the page has no non-empty anchor href. -/
theorem C2_counterexample :
    count_links [⟨"a", [("href", "")], none, []⟩] "http://a.com/x" =
      Except.ok (["http://a.com/x"], []) ∧
    (∀ t ∈ ([⟨"a", [("href", "")], none, []⟩] : Doc), getAttr t "href" = some "") := by
  constructor
  · rfl
  · decide

end WanScrapes
